import Mathlib

/-!
Verification development for the `ReciprocalGraphicalModels` binding layer
(`src/RcppExports.cpp`) and the four sampling routines it exposes:
`Generate_Rho_c`, `Generate_Psi_c`, `Generate_Eta_c`, `Generate_Tau_c`.

The repository's only source file is the auto-generated Rcpp export table;
the sampler bodies are declared there but not defined.  Following the
specification, the samplers are modelled from the spec's contracts
(Beta posterior update for `Rho`/`Psi`, guarded Inverse-Gamma full
conditional for `Eta`/`Tau`, explicit injected entropy source, error
taxonomy InvalidHyperparameter / NumericalDegeneracy / DimensionMismatch),
while the wrappers and the dispatch table are embedded directly from
`RcppExports.cpp`.

Reals are modelled by `ℚ` so that every definition is executable.
-/

namespace RGM

/-- A real-valued matrix (`arma::mat`), modelled as a list of rows. -/
abbrev Mat : Type := List (List ℚ)

/-- Entry `(i, j)` of a matrix, with `0` outside the stored rectangle. -/
def entry (M : Mat) (i j : ℕ) : ℚ := (M.getD i []).getD j 0

/-- Number of rows of the matrix (length of the underlying row list). -/
def nrows (M : Mat) : ℕ := List.length M

/-- Modelled from the spec: "computes sufficient statistics from `Gamma`
(e.g., count of active/inactive entries) ... where `k` is the count of
indicated edges in `Gamma`".  An indicated edge is a nonzero off-diagonal
entry of the square structure-indicator matrix. -/
def countIndicated (M : Mat) : ℕ :=
  ∑ i ∈ Finset.range (nrows M), ∑ j ∈ Finset.range (nrows M),
    if i ≠ j ∧ entry M i j ≠ 0 then 1 else 0

/-- Modelled from the spec: "DimensionMismatch — matrix inputs inconsistent
with declared dimension parameters (`p`, `d`)".  The structure matrix must
be square with the declared dimension. -/
def dimOk (M : Mat) (p : ℚ) : Bool :=
  ((nrows M : ℚ) == p) && M.all (fun r => r.length == nrows M)

/-- Spec error taxonomy (§7): InvalidHyperparameter, NumericalDegeneracy,
DimensionMismatch. -/
inductive Err : Type
  | invalidHyperparameter
  | numericalDegeneracy
  | dimensionMismatch
deriving DecidableEq

/-- Symbolic description of the distribution a sampler draws from:
a Beta with two shape parameters, or an Inverse-Gamma with shape and rate. -/
inductive Dist : Type
  | beta (a b : ℚ)
  | invGamma (shape rate : ℚ)
deriving DecidableEq

/-- The Uniform(0,1) distribution, i.e. `Beta(1,1)`. -/
def Dist.uniform01 : Dist := Dist.beta 1 1

/-- Modelled from the spec (§5, §9): the host-managed random-number
generator is modelled as an explicit injected entropy source — a stream of
raw uniform variates together with a quantile transform turning the next
uniform variate into a draw from a requested distribution, plus the current
stream position. -/
structure RandomSource : Type where
  stream : ℕ → ℚ
  quantile : Dist → ℚ → ℚ
  pos : ℕ

/-- Advancing the generator state by exactly one draw. -/
def RandomSource.advance (s : RandomSource) : RandomSource :=
  ⟨s.stream, s.quantile, s.pos + 1⟩

/-- Well-formedness of an injected entropy source: the raw stream consists
of unit-interval variates, and the quantile transform respects the support
of each distribution family (Beta draws lie in `[0,1]`, Inverse-Gamma draws
are strictly positive, whenever the parameters are admissible). -/
structure ValidSource (s : RandomSource) : Prop where
  unit : ∀ n, 0 ≤ s.stream n ∧ s.stream n ≤ 1
  betaRange : ∀ a b u, 0 < a → 0 < b → 0 ≤ u → u ≤ 1 →
    0 ≤ s.quantile (Dist.beta a b) u ∧ s.quantile (Dist.beta a b) u ≤ 1
  invGammaPos : ∀ sh r u, 0 < sh → 0 < r → 0 ≤ u → u ≤ 1 →
    0 < s.quantile (Dist.invGamma sh r) u

/-- Modelled from the spec: the body of `Generate_Rho_c` is not in the
sources (only its declaration in `RcppExports.cpp`).  Per §4.1 and §7 it
validates the Beta hyperparameters, checks the matrix against the declared
dimension, computes the sufficient statistic `k` and forms the posterior
`Beta(a_rho + k, b_rho + (p*(p-1) - k))`, guarding against degenerate
computed shapes. -/
def Rho_dist (Gamma : Mat) (p a_rho b_rho : ℚ) : Except Err Dist :=
  if a_rho ≤ 0 ∨ b_rho ≤ 0 then Except.error Err.invalidHyperparameter
  else if ¬ dimOk Gamma p then Except.error Err.dimensionMismatch
  else
    let k : ℚ := countIndicated Gamma
    if a_rho + k ≤ 0 ∨ b_rho + (p * (p - 1) - k) ≤ 0 then
      Except.error Err.numericalDegeneracy
    else Except.ok (Dist.beta (a_rho + k) (b_rho + (p * (p - 1) - k)))

/-- Modelled from the spec (§4.1): `Generate_Rho_c` draws one sample from
the posterior Beta distribution, consuming exactly one draw from the
injected entropy source. -/
def Generate_Rho_c (Gamma : Mat) (p a_rho b_rho : ℚ) (src : RandomSource) :
    Except Err (ℚ × RandomSource) :=
  match Rho_dist Gamma p a_rho b_rho with
  | Except.error e => Except.error e
  | Except.ok dist =>
      Except.ok (src.quantile dist (src.stream src.pos), src.advance)

/-- Modelled from the spec (§4.2): `Generate_Psi_c` is structurally
identical to `Generate_Rho_c`, counting its sufficient statistic from `Phi`
parameterized by dimension `d`. -/
def Psi_dist (Phi : Mat) (d a_psi b_psi : ℚ) : Except Err Dist :=
  if a_psi ≤ 0 ∨ b_psi ≤ 0 then Except.error Err.invalidHyperparameter
  else if ¬ dimOk Phi d then Except.error Err.dimensionMismatch
  else
    let k : ℚ := countIndicated Phi
    if a_psi + k ≤ 0 ∨ b_psi + (d * (d - 1) - k) ≤ 0 then
      Except.error Err.numericalDegeneracy
    else Except.ok (Dist.beta (a_psi + k) (b_psi + (d * (d - 1) - k)))

/-- Modelled from the spec (§4.2): one posterior Beta draw for `Psi`. -/
def Generate_Psi_c (Phi : Mat) (d a_psi b_psi : ℚ) (src : RandomSource) :
    Except Err (ℚ × RandomSource) :=
  match Psi_dist Phi d a_psi b_psi with
  | Except.error e => Except.error e
  | Except.ok dist =>
      Except.ok (src.quantile dist (src.stream src.pos), src.advance)

/-- Modelled from the spec (§4.3): the full conditional of `Eta` is an
Inverse-Gamma whose shape and rate are functions of `a_eta`, `b_eta`, the
squared coefficient `b`, the global scale `phi` and `nu_2`.  The spec
leaves the exact closed form open; a representative conjugate update
(shape `a_eta + 1/2`, rate `b_eta + b^2 / (2*phi*nu_2)`) is used — the
theorems below depend only on the validation guards, not on this formula.
Hyperparameters are validated first (§7(a)); a non-positive computed rate
is NumericalDegeneracy (§7(b)). -/
def Eta_dist (b phi a_eta b_eta nu_2 : ℚ) : Except Err Dist :=
  if a_eta ≤ 0 ∨ b_eta ≤ 0 ∨ nu_2 ≤ 0 then
    Except.error Err.invalidHyperparameter
  else
    let shape := a_eta + 1 / 2
    let rate := b_eta + b ^ 2 / (2 * phi * nu_2)
    if rate ≤ 0 then Except.error Err.numericalDegeneracy
    else Except.ok (Dist.invGamma shape rate)

/-- Modelled from the spec (§4.3): one Inverse-Gamma draw for `Eta`. -/
def Generate_Eta_c (b phi a_eta b_eta nu_2 : ℚ) (src : RandomSource) :
    Except Err (ℚ × RandomSource) :=
  match Eta_dist b phi a_eta b_eta nu_2 with
  | Except.error e => Except.error e
  | Except.ok dist =>
      Except.ok (src.quantile dist (src.stream src.pos), src.advance)

/-- Modelled from the spec (§4.4): `Generate_Tau_c` mirrors `Generate_Eta_c`
for the coefficient `a`, global scale `gamma` and hyperparameter `nu_1`. -/
def Tau_dist (a gamma a_tau b_tau nu_1 : ℚ) : Except Err Dist :=
  if a_tau ≤ 0 ∨ b_tau ≤ 0 ∨ nu_1 ≤ 0 then
    Except.error Err.invalidHyperparameter
  else
    let shape := a_tau + 1 / 2
    let rate := b_tau + a ^ 2 / (2 * gamma * nu_1)
    if rate ≤ 0 then Except.error Err.numericalDegeneracy
    else Except.ok (Dist.invGamma shape rate)

/-- Modelled from the spec (§4.4): one Inverse-Gamma draw for `Tau`. -/
def Generate_Tau_c (a gamma a_tau b_tau nu_1 : ℚ) (src : RandomSource) :
    Except Err (ℚ × RandomSource) :=
  match Tau_dist a gamma a_tau b_tau nu_1 with
  | Except.error e => Except.error e
  | Except.ok dist =>
      Except.ok (src.quantile dist (src.stream src.pos), src.advance)

/-! ## The host boundary (`RcppExports.cpp`)

The wrappers below are embedded from the source file itself.  A boxed host
value (`SEXP`) is a real scalar or a real matrix; `input_parameter`
conversion unboxes it, `Rcpp::wrap` boxes a double.  `Rcpp::RNGScope`
synchronises the shared generator state, modelled by threading the
`RandomSource` through the call.  The native routines are only declared in
the source, so each wrapper is parameterized by the routine it invokes. -/

/-- A boxed host-runtime value. -/
inductive SEXP : Type
  | realScalar (x : ℚ)
  | realMatrix (M : Mat)
deriving DecidableEq

/-- Unboxing a matrix argument (`Rcpp::traits::input_parameter<const arma::mat&>`). -/
def asMat : SEXP → Option Mat
  | SEXP.realMatrix M => some M
  | _ => none

/-- Unboxing a double argument (`Rcpp::traits::input_parameter<double>`). -/
def asDouble : SEXP → Option ℚ
  | SEXP.realScalar x => some x
  | _ => none

/-- Boxing a double result (`Rcpp::wrap`). -/
def wrapD (x : ℚ) : SEXP := SEXP.realScalar x

/-- Boxing the result of a native call: a successful sample is wrapped,
an error propagates unchanged (`BEGIN_RCPP`/`END_RCPP` forward exceptions
to the host). -/
def boxResult : Except Err (ℚ × RandomSource) → Except Err (SEXP × RandomSource)
  | Except.error e => Except.error e
  | Except.ok (x, src) => Except.ok (wrapD x, src)

/-- The type of a native sampler routine taking a matrix and three doubles,
as declared for `Generate_Rho_c` and `Generate_Psi_c`. -/
def NativeMat3 : Type :=
  Mat → ℚ → ℚ → ℚ → RandomSource → Except Err (ℚ × RandomSource)

/-- The type of a native sampler routine taking five doubles, as declared
for `Generate_Eta_c` and `Generate_Tau_c`. -/
def Native5 : Type :=
  ℚ → ℚ → ℚ → ℚ → ℚ → RandomSource → Except Err (ℚ × RandomSource)

/-- The wrapper `_ReciprocalGraphicalModels_Generate_Rho_c`: unboxes `Gamma`, `p`,
`a_rho`, `b_rho` in declared order, invokes the native routine under an
`RNGScope`, and boxes the result.  `none` models a host-side unboxing
failure (argument of the wrong boxed type). -/
def RGM_Generate_Rho_c (f : NativeMat3)
    (GammaSEXP pSEXP a_rhoSEXP b_rhoSEXP : SEXP) (src : RandomSource) :
    Option (Except Err (SEXP × RandomSource)) := do
  let Gamma ← asMat GammaSEXP
  let p ← asDouble pSEXP
  let a_rho ← asDouble a_rhoSEXP
  let b_rho ← asDouble b_rhoSEXP
  some (boxResult (f Gamma p a_rho b_rho src))

/-- The wrapper `_ReciprocalGraphicalModels_Generate_Psi_c`: unboxes `Phi`, `d`,
`a_psi`, `b_psi` in declared order, invokes the native routine, boxes. -/
def RGM_Generate_Psi_c (f : NativeMat3)
    (PhiSEXP dSEXP a_psiSEXP b_psiSEXP : SEXP) (src : RandomSource) :
    Option (Except Err (SEXP × RandomSource)) := do
  let Phi ← asMat PhiSEXP
  let d ← asDouble dSEXP
  let a_psi ← asDouble a_psiSEXP
  let b_psi ← asDouble b_psiSEXP
  some (boxResult (f Phi d a_psi b_psi src))

/-- The wrapper `_ReciprocalGraphicalModels_Generate_Eta_c`: unboxes `b`, `phi`,
`a_eta`, `b_eta`, `nu_2` in declared order, invokes the native routine,
boxes. -/
def RGM_Generate_Eta_c (f : Native5)
    (bSEXP phiSEXP a_etaSEXP b_etaSEXP nu_2SEXP : SEXP) (src : RandomSource) :
    Option (Except Err (SEXP × RandomSource)) := do
  let b ← asDouble bSEXP
  let phi ← asDouble phiSEXP
  let a_eta ← asDouble a_etaSEXP
  let b_eta ← asDouble b_etaSEXP
  let nu_2 ← asDouble nu_2SEXP
  some (boxResult (f b phi a_eta b_eta nu_2 src))

/-- The wrapper `_ReciprocalGraphicalModels_Generate_Tau_c`: unboxes `a`, `gamma`,
`a_tau`, `b_tau`, `nu_1` in declared order, invokes the native routine,
boxes. -/
def RGM_Generate_Tau_c (f : Native5)
    (aSEXP gammaSEXP a_tauSEXP b_tauSEXP nu_1SEXP : SEXP) (src : RandomSource) :
    Option (Except Err (SEXP × RandomSource)) := do
  let a ← asDouble aSEXP
  let gamma ← asDouble gammaSEXP
  let a_tau ← asDouble a_tauSEXP
  let b_tau ← asDouble b_tauSEXP
  let nu_1 ← asDouble nu_1SEXP
  some (boxResult (f a gamma a_tau b_tau nu_1 src))

/-- The `R_CallMethodDef` dispatch table from `RcppExports.cpp`: routine
name and argument count for each registered entry (the terminating
`{NULL, NULL, 0}` sentinel marks the end of the C array and is not an
entry). -/
def CallEntries : List (String × ℕ) :=
  [("_ReciprocalGraphicalModels_Generate_Rho_c", 4),
   ("_ReciprocalGraphicalModels_Generate_Psi_c", 4),
   ("_ReciprocalGraphicalModels_Generate_Eta_c", 5),
   ("_ReciprocalGraphicalModels_Generate_Tau_c", 5)]

/-! ## State-threaded call layer

Modelled from the spec (§4.5): the caller's iteration state holds every
sampler input and the shared generator; a sampler call reads its inputs
from that state and may touch only the generator. -/

/-- The Gibbs driver's iteration state: all sampler inputs plus the shared
random source. -/
structure GibbsState : Type where
  Gamma : Mat
  Phi : Mat
  p : ℚ
  d : ℚ
  a_rho : ℚ
  b_rho : ℚ
  a_psi : ℚ
  b_psi : ℚ
  bCoef : ℚ
  phiScale : ℚ
  a_eta : ℚ
  b_eta : ℚ
  nu_2 : ℚ
  aCoef : ℚ
  gammaScale : ℚ
  a_tau : ℚ
  b_tau : ℚ
  nu_1 : ℚ
  src : RandomSource

/-- Invoke `Generate_Rho_c` on the iteration state. -/
def callRho (s : GibbsState) : Except Err (ℚ × GibbsState) :=
  match Generate_Rho_c s.Gamma s.p s.a_rho s.b_rho s.src with
  | Except.error e => Except.error e
  | Except.ok (x, src') => Except.ok (x, { s with src := src' })

/-- Invoke `Generate_Psi_c` on the iteration state. -/
def callPsi (s : GibbsState) : Except Err (ℚ × GibbsState) :=
  match Generate_Psi_c s.Phi s.d s.a_psi s.b_psi s.src with
  | Except.error e => Except.error e
  | Except.ok (x, src') => Except.ok (x, { s with src := src' })

/-- Invoke `Generate_Eta_c` on the iteration state. -/
def callEta (s : GibbsState) : Except Err (ℚ × GibbsState) :=
  match Generate_Eta_c s.bCoef s.phiScale s.a_eta s.b_eta s.nu_2 s.src with
  | Except.error e => Except.error e
  | Except.ok (x, src') => Except.ok (x, { s with src := src' })

/-- Invoke `Generate_Tau_c` on the iteration state. -/
def callTau (s : GibbsState) : Except Err (ℚ × GibbsState) :=
  match Generate_Tau_c s.aCoef s.gammaScale s.a_tau s.b_tau s.nu_1 s.src with
  | Except.error e => Except.error e
  | Except.ok (x, src') => Except.ok (x, { s with src := src' })

/-! ## A concrete entropy source for evaluating the model -/

/-- Clamp a rational to the unit interval. -/
def unitClamp (u : ℚ) : ℚ := if u ≤ 0 then 0 else if 1 ≤ u then 1 else u

/-- A concrete quantile transform: Beta draws clamp the uniform variate to
the unit interval, Inverse-Gamma draws return `1`. -/
def constQuantile : Dist → ℚ → ℚ
  | Dist.beta _ _, u => unitClamp u
  | Dist.invGamma _ _, _ => 1

/-- A concrete entropy source: the constant stream `1` with the clamping
quantile transform, at a given position. -/
def constSrc (n : ℕ) : RandomSource := ⟨fun _ => 1, constQuantile, n⟩

/-- A concrete iteration state on which all four sampler calls succeed. -/
def s0 : GibbsState :=
  { Gamma := [[0, 0], [0, 0]], Phi := [[0, 0], [0, 0]], p := 2, d := 2
    a_rho := 1, b_rho := 1, a_psi := 1, b_psi := 1
    bCoef := 0, phiScale := 1, a_eta := 1, b_eta := 1, nu_2 := 1
    aCoef := 0, gammaScale := 1, a_tau := 1, b_tau := 1, nu_1 := 1
    src := constSrc 0 }

/-- The state `s0` after one sampler call: only the generator has advanced. -/
def s1 : GibbsState := { s0 with src := RandomSource.advance s0.src }

/-- The composition named by the wrapper contract: unbox the matrix and the
three doubles, apply the native routine to them in declared order, box the
result; fail if any unboxing fails. -/
def unboxCallBoxMat3 (f : NativeMat3) (mS x1S x2S x3S : SEXP)
    (src : RandomSource) : Option (Except Err (SEXP × RandomSource)) :=
  match asMat mS, asDouble x1S, asDouble x2S, asDouble x3S with
  | some M, some x1, some x2, some x3 => some (boxResult (f M x1 x2 x3 src))
  | _, _, _, _ => none

/-- The composition named by the wrapper contract for the five-double
routines. -/
def unboxCallBox5 (f : Native5) (x1S x2S x3S x4S x5S : SEXP)
    (src : RandomSource) : Option (Except Err (SEXP × RandomSource)) :=
  match asDouble x1S, asDouble x2S, asDouble x3S, asDouble x4S, asDouble x5S with
  | some x1, some x2, some x3, some x4, some x5 =>
      some (boxResult (f x1 x2 x3 x4 x5 src))
  | _, _, _, _, _ => none

/-- The clamp always lands in the unit interval. -/
theorem unitClamp_mem (u : ℚ) : 0 ≤ unitClamp u ∧ unitClamp u ≤ 1 := by
  unfold unitClamp
  split
  · norm_num
  · split
    · norm_num
    · rename_i h1 h2
      push_neg at h1 h2
      exact ⟨le_of_lt h1, le_of_lt h2⟩

/-- The concrete source is well formed. -/
theorem validSource_constSrc (n : ℕ) : ValidSource (constSrc n) := by
  refine ⟨fun _ => by norm_num [constSrc], ?_, ?_⟩
  · intro a b u _ _ _ _
    exact unitClamp_mem u
  · intro sh r u _ _ _ _
    norm_num [constSrc, constQuantile]

/-! ## Inversion helpers -/

/-- A successful `Generate_Rho_c` call is one quantile draw from the
posterior distribution, with the source advanced once. -/
theorem Generate_Rho_c_ok {Gamma : Mat} {p a_rho b_rho : ℚ}
    {src src' : RandomSource} {x : ℚ}
    (h : Generate_Rho_c Gamma p a_rho b_rho src = Except.ok (x, src')) :
    ∃ dist, Rho_dist Gamma p a_rho b_rho = Except.ok dist ∧
      x = src.quantile dist (src.stream src.pos) ∧ src' = src.advance := by
  unfold Generate_Rho_c at h
  cases hd : Rho_dist Gamma p a_rho b_rho with
  | error e => rw [hd] at h; cases h
  | ok dist =>
      rw [hd] at h
      simp only [Except.ok.injEq, Prod.mk.injEq] at h
      exact ⟨dist, rfl, h.1.symm, h.2.symm⟩

/-- A successful `Generate_Psi_c` call is one quantile draw from the
posterior distribution, with the source advanced once. -/
theorem Generate_Psi_c_ok {Phi : Mat} {d a_psi b_psi : ℚ}
    {src src' : RandomSource} {x : ℚ}
    (h : Generate_Psi_c Phi d a_psi b_psi src = Except.ok (x, src')) :
    ∃ dist, Psi_dist Phi d a_psi b_psi = Except.ok dist ∧
      x = src.quantile dist (src.stream src.pos) ∧ src' = src.advance := by
  unfold Generate_Psi_c at h
  cases hd : Psi_dist Phi d a_psi b_psi with
  | error e => rw [hd] at h; cases h
  | ok dist =>
      rw [hd] at h
      simp only [Except.ok.injEq, Prod.mk.injEq] at h
      exact ⟨dist, rfl, h.1.symm, h.2.symm⟩

/-- A successful `Generate_Eta_c` call is one quantile draw from the full
conditional, with the source advanced once. -/
theorem Generate_Eta_c_ok {b phi a_eta b_eta nu_2 : ℚ}
    {src src' : RandomSource} {x : ℚ}
    (h : Generate_Eta_c b phi a_eta b_eta nu_2 src = Except.ok (x, src')) :
    ∃ dist, Eta_dist b phi a_eta b_eta nu_2 = Except.ok dist ∧
      x = src.quantile dist (src.stream src.pos) ∧ src' = src.advance := by
  unfold Generate_Eta_c at h
  cases hd : Eta_dist b phi a_eta b_eta nu_2 with
  | error e => rw [hd] at h; cases h
  | ok dist =>
      rw [hd] at h
      simp only [Except.ok.injEq, Prod.mk.injEq] at h
      exact ⟨dist, rfl, h.1.symm, h.2.symm⟩

/-- A successful `Generate_Tau_c` call is one quantile draw from the full
conditional, with the source advanced once. -/
theorem Generate_Tau_c_ok {a gamma a_tau b_tau nu_1 : ℚ}
    {src src' : RandomSource} {x : ℚ}
    (h : Generate_Tau_c a gamma a_tau b_tau nu_1 src = Except.ok (x, src')) :
    ∃ dist, Tau_dist a gamma a_tau b_tau nu_1 = Except.ok dist ∧
      x = src.quantile dist (src.stream src.pos) ∧ src' = src.advance := by
  unfold Generate_Tau_c at h
  cases hd : Tau_dist a gamma a_tau b_tau nu_1 with
  | error e => rw [hd] at h; cases h
  | ok dist =>
      rw [hd] at h
      simp only [Except.ok.injEq, Prod.mk.injEq] at h
      exact ⟨dist, rfl, h.1.symm, h.2.symm⟩

/-- Whenever `Rho_dist` succeeds, it produces a Beta distribution with
strictly positive shape parameters. -/
theorem Rho_dist_ok_beta {Gamma : Mat} {p a_rho b_rho : ℚ} {dist : Dist}
    (h : Rho_dist Gamma p a_rho b_rho = Except.ok dist) :
    ∃ α β, dist = Dist.beta α β ∧ 0 < α ∧ 0 < β := by
  simp only [Rho_dist] at h
  split at h
  · cases h
  · split at h
    · cases h
    · split at h
      · cases h
      · rename_i hshapes
        push_neg at hshapes
        exact ⟨_, _, (Except.ok.inj h).symm, hshapes.1, hshapes.2⟩

/-- Whenever `Psi_dist` succeeds, it produces a Beta distribution with
strictly positive shape parameters. -/
theorem Psi_dist_ok_beta {Phi : Mat} {d a_psi b_psi : ℚ} {dist : Dist}
    (h : Psi_dist Phi d a_psi b_psi = Except.ok dist) :
    ∃ α β, dist = Dist.beta α β ∧ 0 < α ∧ 0 < β := by
  simp only [Psi_dist] at h
  split at h
  · cases h
  · split at h
    · cases h
    · split at h
      · cases h
      · rename_i hshapes
        push_neg at hshapes
        exact ⟨_, _, (Except.ok.inj h).symm, hshapes.1, hshapes.2⟩

/-- Whenever `Eta_dist` succeeds, it produces an Inverse-Gamma with
strictly positive shape and rate. -/
theorem Eta_dist_ok_invGamma {b phi a_eta b_eta nu_2 : ℚ} {dist : Dist}
    (h : Eta_dist b phi a_eta b_eta nu_2 = Except.ok dist) :
    ∃ sh r, dist = Dist.invGamma sh r ∧ 0 < sh ∧ 0 < r := by
  simp only [Eta_dist] at h
  split at h
  · cases h
  · rename_i hvalid
    push_neg at hvalid
    split at h
    · cases h
    · rename_i hrate
      push_neg at hrate
      refine ⟨_, _, (Except.ok.inj h).symm, ?_, hrate⟩
      have := hvalid.1
      linarith

/-- Whenever `Tau_dist` succeeds, it produces an Inverse-Gamma with
strictly positive shape and rate. -/
theorem Tau_dist_ok_invGamma {a gamma a_tau b_tau nu_1 : ℚ} {dist : Dist}
    (h : Tau_dist a gamma a_tau b_tau nu_1 = Except.ok dist) :
    ∃ sh r, dist = Dist.invGamma sh r ∧ 0 < sh ∧ 0 < r := by
  simp only [Tau_dist] at h
  split at h
  · cases h
  · rename_i hvalid
    push_neg at hvalid
    split at h
    · cases h
    · rename_i hrate
      push_neg at hrate
      refine ⟨_, _, (Except.ok.inj h).symm, ?_, hrate⟩
      have := hvalid.1
      linarith

/-! ## Counting the sufficient statistic -/

/-- A square matrix has at most `p * (p - 1)` indicated (off-diagonal,
nonzero) entries. -/
theorem countIndicated_le {M : Mat} {p : ℚ} (h : dimOk M p = true) :
    (countIndicated M : ℚ) ≤ p * (p - 1) := by
  have hp : (nrows M : ℚ) = p := by
    simp only [dimOk, Bool.and_eq_true, beq_iff_eq, List.all_eq_true] at h
    exact h.1
  subst hp
  set n := nrows M with hn
  have hcast : (countIndicated M : ℚ)
      = ∑ i ∈ Finset.range n, ∑ j ∈ Finset.range n,
          if i ≠ j ∧ entry M i j ≠ 0 then (1 : ℚ) else 0 := by
    rw [countIndicated, ← hn]
    push_cast
    rfl
  rw [hcast]
  have hinner : ∀ i ∈ Finset.range n,
      (∑ j ∈ Finset.range n, if i ≠ j ∧ entry M i j ≠ 0 then (1 : ℚ) else 0)
        ≤ (n : ℚ) - 1 := by
    intro i hi
    have h1 : (∑ j ∈ Finset.range n, if i ≠ j ∧ entry M i j ≠ 0 then (1 : ℚ) else 0)
        ≤ ∑ j ∈ Finset.range n, ((1 : ℚ) - if i = j then 1 else 0) := by
      apply Finset.sum_le_sum
      intro j _
      by_cases hij : i = j
      · simp [hij]
      · by_cases hz : entry M i j = 0 <;> simp [hij, hz]
    have h2 : (∑ j ∈ Finset.range n, ((1 : ℚ) - if i = j then 1 else 0))
        = (n : ℚ) - 1 := by
      rw [Finset.sum_sub_distrib, Finset.sum_const, Finset.card_range,
        Finset.sum_ite_eq]
      simp [hi]
    linarith
  have h3 := Finset.sum_le_sum hinner
  apply le_trans h3
  rw [Finset.sum_const, Finset.card_range, nsmul_eq_mul]

/-- In an all-zero row, every `getD` lookup yields `0`. -/
theorem getD_zero_of_allzero {l : List ℚ} (h : ∀ x ∈ l, x = 0) (j : ℕ) :
    l.getD j 0 = 0 := by
  induction l generalizing j with
  | nil => cases j <;> rfl
  | cons a t ih =>
      cases j with
      | zero => exact h a (List.mem_cons_self a t)
      | succ j => exact ih (fun x hx => h x (List.mem_cons_of_mem a hx)) j

/-- In an all-zero matrix, every entry is `0`. -/
theorem entry_zero_of_allzero {M : Mat} (hz : ∀ r ∈ M, ∀ x ∈ r, x = 0)
    (i j : ℕ) : entry M i j = 0 := by
  unfold entry
  induction M generalizing i with
  | nil => cases i <;> rfl
  | cons r t ih =>
      cases i with
      | zero => exact getD_zero_of_allzero (hz r (List.mem_cons_self r t)) j
      | succ i => exact ih (fun r' hr' => hz r' (List.mem_cons_of_mem r hr')) i

/-- An all-zero matrix has no indicated edges. -/
theorem countIndicated_allzero {M : Mat} (hz : ∀ r ∈ M, ∀ x ∈ r, x = 0) :
    countIndicated M = 0 := by
  unfold countIndicated
  apply Finset.sum_eq_zero
  intro i _
  apply Finset.sum_eq_zero
  intro j _
  rw [if_neg]
  rintro ⟨_, hne⟩
  exact hne (entry_zero_of_allzero hz i j)

/-- On valid hyperparameters and a dimension-consistent matrix, `Rho_dist`
is exactly the count-based posterior Beta. -/
theorem Rho_dist_eval {Gamma : Mat} {p a_rho b_rho : ℚ}
    (ha : 0 < a_rho) (hb : 0 < b_rho) (hdim : dimOk Gamma p = true) :
    Rho_dist Gamma p a_rho b_rho =
      Except.ok (Dist.beta (a_rho + countIndicated Gamma)
        (b_rho + (p * (p - 1) - countIndicated Gamma))) := by
  have hk := countIndicated_le (M := Gamma) hdim
  have hknn : (0 : ℚ) ≤ (countIndicated Gamma : ℚ) := Nat.cast_nonneg _
  simp only [Rho_dist]
  rw [if_neg (by push_neg; exact ⟨ha, hb⟩)]
  rw [if_neg (by simp [hdim])]
  rw [if_neg (by push_neg; exact ⟨by linarith, by linarith⟩)]

/-! ## Concrete evaluations of the model -/

/-- Evaluating `Generate_Rho_c` on the `2 × 2` zero matrix with unit hyperparameters:
and the constant source draws the clamped variate `1`. -/
theorem rho_eval00 :
    Generate_Rho_c [[0, 0], [0, 0]] 2 1 1 (constSrc 0) =
      Except.ok (1, (constSrc 0).advance) := by
  have hc : countIndicated [[0, 0], [0, 0]] = 0 := by decide
  unfold Generate_Rho_c
  rw [Rho_dist_eval one_pos one_pos (by decide), hc]
  norm_num [constSrc, constQuantile, unitClamp]

/-- Evaluating `Generate_Psi_c` on the `2 × 2` zero matrix with unit hyperparameters:
and the constant source draws the clamped variate `1`. -/
theorem psi_eval00 :
    Generate_Psi_c [[0, 0], [0, 0]] 2 1 1 (constSrc 0) =
      Except.ok (1, (constSrc 0).advance) := by
  have hd : Psi_dist [[0, 0], [0, 0]] 2 1 1 =
      Except.ok (Dist.beta 1 3) := by
    have hc : countIndicated [[0, 0], [0, 0]] = 0 := by decide
    have hdim : dimOk [[0, 0], [0, 0]] 2 = true := by decide
    simp only [Psi_dist, hc, hdim]
    norm_num
  unfold Generate_Psi_c
  rw [hd]
  norm_num [constSrc, constQuantile, unitClamp]

/-- Evaluating `Generate_Eta_c` at the spec's boundary scenario `b = 0`, `phi = 1`,
unit hyperparameters, on the constant source. -/
theorem eta_eval0 :
    Generate_Eta_c 0 1 1 1 1 (constSrc 0) =
      Except.ok (1, (constSrc 0).advance) := by
  have hd : Eta_dist 0 1 1 1 1 = Except.ok (Dist.invGamma (1 + 1 / 2) 1) := by
    norm_num [Eta_dist]
  unfold Generate_Eta_c
  rw [hd]
  norm_num [constSrc, constQuantile]

/-- Evaluating `Generate_Tau_c` at `a = 0`, `gamma = 1`, unit hyperparameters, on the
constant source. -/
theorem tau_eval0 :
    Generate_Tau_c 0 1 1 1 1 (constSrc 0) =
      Except.ok (1, (constSrc 0).advance) := by
  have hd : Tau_dist 0 1 1 1 1 = Except.ok (Dist.invGamma (1 + 1 / 2) 1) := by
    norm_num [Tau_dist]
  unfold Generate_Tau_c
  rw [hd]
  norm_num [constSrc, constQuantile]

/-! ## Claim theorems -/

/-- C1: For every matrix `Gamma` (resp. `Phi`) and all strictly positive
hyperparameters `a_rho`, `b_rho` (resp. `a_psi`, `b_psi`), the value
returned by `Generate_Rho_c` (resp. `Generate_Psi_c`) lies in the interval
`[0,1]`. -/
theorem C1_rho_psi_output_in_unit_interval
    (Gamma Phi : Mat) (p d a_rho b_rho a_psi b_psi : ℚ)
    (srcR srcP : RandomSource) (xR xP : ℚ) (srcR' srcP' : RandomSource)
    (hvR : ValidSource srcR) (hvP : ValidSource srcP)
    (haR : 0 < a_rho) (hbR : 0 < b_rho) (haP : 0 < a_psi) (hbP : 0 < b_psi)
    (hcallR : Generate_Rho_c Gamma p a_rho b_rho srcR = Except.ok (xR, srcR'))
    (hcallP : Generate_Psi_c Phi d a_psi b_psi srcP = Except.ok (xP, srcP')) :
    (0 ≤ xR ∧ xR ≤ 1) ∧ (0 ≤ xP ∧ xP ≤ 1) := by
  constructor
  · obtain ⟨dist, hd, hx, -⟩ := Generate_Rho_c_ok hcallR
    obtain ⟨α, β, rfl, hα, hβ⟩ := Rho_dist_ok_beta hd
    obtain ⟨hu0, hu1⟩ := hvR.unit srcR.pos
    rw [hx]
    exact hvR.betaRange α β _ hα hβ hu0 hu1
  · obtain ⟨dist, hd, hx, -⟩ := Generate_Psi_c_ok hcallP
    obtain ⟨α, β, rfl, hα, hβ⟩ := Psi_dist_ok_beta hd
    obtain ⟨hu0, hu1⟩ := hvP.unit srcP.pos
    rw [hx]
    exact hvP.betaRange α β _ hα hβ hu0 hu1

/-- Witness for C1 at a concrete `2 × 2` zero matrix and the constant
entropy source. -/
theorem C1_witness :
    ((0 : ℚ) ≤ 1 ∧ (1 : ℚ) ≤ 1) ∧ ((0 : ℚ) ≤ 1 ∧ (1 : ℚ) ≤ 1) :=
  C1_rho_psi_output_in_unit_interval
    [[0, 0], [0, 0]] [[0, 0], [0, 0]] 2 2 1 1 1 1
    (constSrc 0) (constSrc 0) 1 1
    ((constSrc 0).advance) ((constSrc 0).advance)
    (validSource_constSrc 0) (validSource_constSrc 0)
    one_pos one_pos one_pos one_pos rho_eval00 psi_eval00

/-- C2: For all strictly positive inputs satisfying the preconditions
(`a_eta>0`, `b_eta>0`, `nu_2>0` for `Eta`; `a_tau>0`, `b_tau>0`, `nu_1>0`
for `Tau`), the value returned by `Generate_Eta_c` and by `Generate_Tau_c`
is strictly positive (and, being a rational in this model, finite). -/
theorem C2_eta_tau_output_positive
    (b phi a gamma a_eta b_eta nu_2 a_tau b_tau nu_1 : ℚ)
    (srcE srcT : RandomSource) (xE xT : ℚ) (srcE' srcT' : RandomSource)
    (hvE : ValidSource srcE) (hvT : ValidSource srcT)
    (haE : 0 < a_eta) (hbE : 0 < b_eta) (hnE : 0 < nu_2)
    (haT : 0 < a_tau) (hbT : 0 < b_tau) (hnT : 0 < nu_1)
    (hcallE : Generate_Eta_c b phi a_eta b_eta nu_2 srcE = Except.ok (xE, srcE'))
    (hcallT : Generate_Tau_c a gamma a_tau b_tau nu_1 srcT = Except.ok (xT, srcT')) :
    0 < xE ∧ 0 < xT := by
  constructor
  · obtain ⟨dist, hd, hx, -⟩ := Generate_Eta_c_ok hcallE
    obtain ⟨sh, r, rfl, hsh, hr⟩ := Eta_dist_ok_invGamma hd
    obtain ⟨hu0, hu1⟩ := hvE.unit srcE.pos
    rw [hx]
    exact hvE.invGammaPos sh r _ hsh hr hu0 hu1
  · obtain ⟨dist, hd, hx, -⟩ := Generate_Tau_c_ok hcallT
    obtain ⟨sh, r, rfl, hsh, hr⟩ := Tau_dist_ok_invGamma hd
    obtain ⟨hu0, hu1⟩ := hvT.unit srcT.pos
    rw [hx]
    exact hvT.invGammaPos sh r _ hsh hr hu0 hu1

/-- Witness for C2 at the spec's boundary scenario `b = 0`, `phi = 1`,
unit hyperparameters, and the constant entropy source. -/
theorem C2_witness : (0 : ℚ) < 1 ∧ (0 : ℚ) < 1 :=
  C2_eta_tau_output_positive 0 1 0 1 1 1 1 1 1 1
    (constSrc 0) (constSrc 0) 1 1
    ((constSrc 0).advance) ((constSrc 0).advance)
    (validSource_constSrc 0) (validSource_constSrc 0)
    one_pos one_pos one_pos one_pos one_pos one_pos eta_eval0 tau_eval0

/-- C3: For every `Gamma`, `p`, `a_rho>0`, `b_rho>0` (with `Gamma`
consistent with the declared dimension `p`), `Generate_Rho_c` computes
`k = countIndicated Gamma` and returns one draw from a Beta distribution
with shape parameters `a_rho + k` and `b_rho + (p*(p-1) - k)`, consuming
exactly one variate of the entropy source. -/
theorem C3_rho_posterior_beta_draw
    (Gamma : Mat) (p a_rho b_rho : ℚ) (src : RandomSource)
    (ha : 0 < a_rho) (hb : 0 < b_rho) (hdim : dimOk Gamma p = true) :
    Generate_Rho_c Gamma p a_rho b_rho src =
      Except.ok (src.quantile
        (Dist.beta (a_rho + countIndicated Gamma)
          (b_rho + (p * (p - 1) - countIndicated Gamma)))
        (src.stream src.pos), src.advance) := by
  unfold Generate_Rho_c
  rw [Rho_dist_eval ha hb hdim]

/-- Witness for C3 at the spec's scenario: `3 × 3` all-ones off-diagonal
matrix, `p = 3`, `a_rho = b_rho = 1` (so `k = 6`). -/
theorem C3_witness :
    Generate_Rho_c [[0, 1, 1], [1, 0, 1], [1, 1, 0]] 3 1 1 (constSrc 0) =
      Except.ok ((constSrc 0).quantile
        (Dist.beta (1 + countIndicated [[0, 1, 1], [1, 0, 1], [1, 1, 0]])
          (1 + (3 * (3 - 1) - countIndicated [[0, 1, 1], [1, 0, 1], [1, 1, 0]])))
        ((constSrc 0).stream (constSrc 0).pos), (constSrc 0).advance) :=
  C3_rho_posterior_beta_draw [[0, 1, 1], [1, 0, 1], [1, 1, 0]] 3 1 1
    (constSrc 0) one_pos one_pos rfl

/-- C4: For every sampler, a zero or negative shape/rate hyperparameter
argument makes the call fail with the InvalidHyperparameter error rather
than return a sample. -/
theorem C4_invalid_hyperparameter_error
    (Gamma Phi : Mat)
    (p d a_rho b_rho a_psi b_psi b phi a_eta b_eta nu_2 a gamma a_tau b_tau nu_1 : ℚ)
    (srcR srcP srcE srcT : RandomSource)
    (hR : a_rho ≤ 0 ∨ b_rho ≤ 0) (hP : a_psi ≤ 0 ∨ b_psi ≤ 0)
    (hE : a_eta ≤ 0 ∨ b_eta ≤ 0 ∨ nu_2 ≤ 0)
    (hT : a_tau ≤ 0 ∨ b_tau ≤ 0 ∨ nu_1 ≤ 0) :
    Generate_Rho_c Gamma p a_rho b_rho srcR =
        Except.error Err.invalidHyperparameter ∧
      Generate_Psi_c Phi d a_psi b_psi srcP =
        Except.error Err.invalidHyperparameter ∧
      Generate_Eta_c b phi a_eta b_eta nu_2 srcE =
        Except.error Err.invalidHyperparameter ∧
      Generate_Tau_c a gamma a_tau b_tau nu_1 srcT =
        Except.error Err.invalidHyperparameter := by
  refine ⟨?_, ?_, ?_, ?_⟩
  · unfold Generate_Rho_c
    simp only [Rho_dist]
    rw [if_pos hR]
  · unfold Generate_Psi_c
    simp only [Psi_dist]
    rw [if_pos hP]
  · unfold Generate_Eta_c
    simp only [Eta_dist]
    rw [if_pos hE]
  · unfold Generate_Tau_c
    simp only [Tau_dist]
    rw [if_pos hT]

/-- Witness for C4: each sampler rejects a zero first shape parameter
(the spec's example `a_rho = 0`). -/
theorem C4_witness :
    Generate_Rho_c [[0, 0], [0, 0]] 2 0 1 (constSrc 0) =
        Except.error Err.invalidHyperparameter ∧
      Generate_Psi_c [[0, 0], [0, 0]] 2 0 1 (constSrc 0) =
        Except.error Err.invalidHyperparameter ∧
      Generate_Eta_c 0 1 0 1 1 (constSrc 0) =
        Except.error Err.invalidHyperparameter ∧
      Generate_Tau_c 0 1 0 1 1 (constSrc 0) =
        Except.error Err.invalidHyperparameter :=
  C4_invalid_hyperparameter_error [[0, 0], [0, 0]] [[0, 0], [0, 0]]
    2 2 0 1 0 1 0 1 0 1 1 0 1 0 1 1
    (constSrc 0) (constSrc 0) (constSrc 0) (constSrc 0)
    (Or.inl le_rfl) (Or.inl le_rfl) (Or.inl le_rfl) (Or.inl le_rfl)

/-- C5: each sampler is a deterministic function of its arguments and the
entropy stream: two calls with identical inputs against generators with
identical stream, quantile transform, and position return identical
outputs. -/
theorem C5_samplers_deterministic
    (src₁ src₂ : RandomSource)
    (hs : ∀ n, src₁.stream n = src₂.stream n)
    (hq : ∀ dist u, src₁.quantile dist u = src₂.quantile dist u)
    (hpos : src₁.pos = src₂.pos)
    (Gamma Phi : Mat)
    (p d a_rho b_rho a_psi b_psi b phi a_eta b_eta nu_2 a gamma a_tau b_tau nu_1 : ℚ) :
    Generate_Rho_c Gamma p a_rho b_rho src₁ =
        Generate_Rho_c Gamma p a_rho b_rho src₂ ∧
      Generate_Psi_c Phi d a_psi b_psi src₁ =
        Generate_Psi_c Phi d a_psi b_psi src₂ ∧
      Generate_Eta_c b phi a_eta b_eta nu_2 src₁ =
        Generate_Eta_c b phi a_eta b_eta nu_2 src₂ ∧
      Generate_Tau_c a gamma a_tau b_tau nu_1 src₁ =
        Generate_Tau_c a gamma a_tau b_tau nu_1 src₂ := by
  have h : src₁ = src₂ := by
    obtain ⟨s₁, q₁, p₁⟩ := src₁
    obtain ⟨s₂, q₂, p₂⟩ := src₂
    simp only [RandomSource.mk.injEq]
    exact ⟨funext hs, funext fun dist => funext (hq dist), hpos⟩
  rw [h]
  exact ⟨rfl, rfl, rfl, rfl⟩

/-- Witness for C5 at concrete inputs and the constant source. -/
theorem C5_witness :
    Generate_Rho_c [[0, 0], [0, 0]] 2 1 1 (constSrc 0) =
        Generate_Rho_c [[0, 0], [0, 0]] 2 1 1 (constSrc 0) ∧
      Generate_Psi_c [[0, 0], [0, 0]] 2 1 1 (constSrc 0) =
        Generate_Psi_c [[0, 0], [0, 0]] 2 1 1 (constSrc 0) ∧
      Generate_Eta_c 0 1 1 1 1 (constSrc 0) =
        Generate_Eta_c 0 1 1 1 1 (constSrc 0) ∧
      Generate_Tau_c 0 1 1 1 1 (constSrc 0) =
        Generate_Tau_c 0 1 1 1 1 (constSrc 0) :=
  C5_samplers_deterministic (constSrc 0) (constSrc 0)
    (fun _ => rfl) (fun _ _ => rfl) rfl
    [[0, 0], [0, 0]] [[0, 0], [0, 0]] 2 2 1 1 1 1 0 1 1 1 1 0 1 1 1 1

/-- C6 fails as stated: at `p = 2` with the all-zero `2 × 2` matrix and
`a_rho = b_rho = 1`, the output distribution of the sampler is
`Beta(1, 3)`, which is not Uniform(0,1) = `Beta(1, 1)`. -/
theorem C6_counterexample :
    Rho_dist [[0, 0], [0, 0]] 2 1 1 = Except.ok (Dist.beta 1 3) ∧
      Dist.beta 1 3 ≠ Dist.uniform01 := by
  constructor
  · have hc : countIndicated [[0, 0], [0, 0]] = 0 := by decide
    rw [Rho_dist_eval one_pos one_pos (by decide), hc]
    norm_num
  · intro h
    rw [Dist.uniform01, Dist.beta.injEq] at h
    exact absurd h.2 (by norm_num)

/-- C6 (amended): when `a_rho = b_rho = 1` and `Gamma` is the all-zero
matrix consistent with dimension `p`, the output distribution of
`Generate_Rho_c` is the flat-prior posterior `Beta(1, 1 + p*(p-1))`;
it reduces to Uniform(0,1) precisely when `p * (p - 1) = 0`. -/
theorem C6_rho_allzero_flat_beta
    (Gamma : Mat) (p : ℚ)
    (hz : ∀ r ∈ Gamma, ∀ x ∈ r, x = 0) (hdim : dimOk Gamma p = true) :
    Rho_dist Gamma p 1 1 = Except.ok (Dist.beta 1 (1 + p * (p - 1))) ∧
      (Rho_dist Gamma p 1 1 = Except.ok Dist.uniform01 ↔ p * (p - 1) = 0) := by
  have hc := countIndicated_allzero hz
  have h1 : Rho_dist Gamma p 1 1 =
      Except.ok (Dist.beta 1 (1 + p * (p - 1))) := by
    rw [Rho_dist_eval one_pos one_pos hdim, hc]
    norm_num
  refine ⟨h1, ?_⟩
  rw [h1]
  simp only [Dist.uniform01, Except.ok.injEq, Dist.beta.injEq, true_and]
  constructor
  · intro h
    linarith
  · intro h
    rw [h, add_zero]

/-- Witness for the amended C6 at the `1 × 1` zero matrix, where
`p * (p - 1) = 0` and the posterior really is Uniform(0,1). -/
theorem C6_witness :
    Rho_dist [[0]] 1 1 1 = Except.ok (Dist.beta 1 (1 + 1 * (1 - 1))) ∧
      (Rho_dist [[0]] 1 1 1 = Except.ok Dist.uniform01 ↔
        (1 : ℚ) * (1 - 1) = 0) :=
  C6_rho_allzero_flat_beta [[0]] 1 (by decide) (by decide)

/-- Rejection of `a_rho = 0` by `Rho_dist` (InvalidHyperparameter). -/
theorem rho_dist_invalid :
    Rho_dist [[0, 0], [0, 0]] 2 0 1 =
      Except.error Err.invalidHyperparameter := by
  simp only [Rho_dist]
  rw [if_pos (Or.inl le_rfl)]

/-- Rejection by `Psi_dist` of a `1 × 1` matrix declared as dimension `2`
(DimensionMismatch). -/
theorem psi_dist_mismatch :
    Psi_dist [[0]] 2 1 1 = Except.error Err.dimensionMismatch := by
  simp only [Psi_dist]
  rw [if_neg (by norm_num), if_pos (by decide)]

/-- Rejection by `Eta_dist` of inputs producing a negative computed rate
(NumericalDegeneracy): `b = 2`, `phi = -1` gives rate `1 - 2 = -1`. -/
theorem eta_dist_degenerate :
    Eta_dist 2 (-1) 1 1 1 = Except.error Err.numericalDegeneracy := by
  simp only [Eta_dist]
  rw [if_neg (by norm_num), if_pos (by norm_num)]

/-- Rejection of `a_tau = 0` by `Tau_dist` (InvalidHyperparameter). -/
theorem tau_dist_invalid :
    Tau_dist 0 1 0 1 1 = Except.error Err.invalidHyperparameter := by
  simp only [Tau_dist]
  rw [if_pos (Or.inl le_rfl)]

/-- C7: every failure condition surfaces as an error that propagates
unchanged through the sampler and through its exported wrapper; no error
path returns a boxed sample, and no error is swallowed. -/
theorem C7_errors_propagate
    (src : RandomSource) (Gamma Phi : Mat)
    (p d a_rho b_rho a_psi b_psi b phi a_eta b_eta nu_2 a gamma a_tau b_tau nu_1 : ℚ)
    (eR eP eE eT : Err)
    (hR : Rho_dist Gamma p a_rho b_rho = Except.error eR)
    (hP : Psi_dist Phi d a_psi b_psi = Except.error eP)
    (hE : Eta_dist b phi a_eta b_eta nu_2 = Except.error eE)
    (hT : Tau_dist a gamma a_tau b_tau nu_1 = Except.error eT) :
    (Generate_Rho_c Gamma p a_rho b_rho src = Except.error eR ∧
      RGM_Generate_Rho_c Generate_Rho_c (SEXP.realMatrix Gamma)
        (SEXP.realScalar p) (SEXP.realScalar a_rho) (SEXP.realScalar b_rho)
        src = some (Except.error eR)) ∧
    (Generate_Psi_c Phi d a_psi b_psi src = Except.error eP ∧
      RGM_Generate_Psi_c Generate_Psi_c (SEXP.realMatrix Phi)
        (SEXP.realScalar d) (SEXP.realScalar a_psi) (SEXP.realScalar b_psi)
        src = some (Except.error eP)) ∧
    (Generate_Eta_c b phi a_eta b_eta nu_2 src = Except.error eE ∧
      RGM_Generate_Eta_c Generate_Eta_c (SEXP.realScalar b)
        (SEXP.realScalar phi) (SEXP.realScalar a_eta) (SEXP.realScalar b_eta)
        (SEXP.realScalar nu_2) src = some (Except.error eE)) ∧
    (Generate_Tau_c a gamma a_tau b_tau nu_1 src = Except.error eT ∧
      RGM_Generate_Tau_c Generate_Tau_c (SEXP.realScalar a)
        (SEXP.realScalar gamma) (SEXP.realScalar a_tau) (SEXP.realScalar b_tau)
        (SEXP.realScalar nu_1) src = some (Except.error eT)) := by
  have gR : Generate_Rho_c Gamma p a_rho b_rho src = Except.error eR := by
    unfold Generate_Rho_c
    rw [hR]
  have gP : Generate_Psi_c Phi d a_psi b_psi src = Except.error eP := by
    unfold Generate_Psi_c
    rw [hP]
  have gE : Generate_Eta_c b phi a_eta b_eta nu_2 src = Except.error eE := by
    unfold Generate_Eta_c
    rw [hE]
  have gT : Generate_Tau_c a gamma a_tau b_tau nu_1 src = Except.error eT := by
    unfold Generate_Tau_c
    rw [hT]
  refine ⟨⟨gR, ?_⟩, ⟨gP, ?_⟩, ⟨gE, ?_⟩, ⟨gT, ?_⟩⟩
  · simp [RGM_Generate_Rho_c, asMat, asDouble, boxResult, gR]
  · simp [RGM_Generate_Psi_c, asMat, asDouble, boxResult, gP]
  · simp [RGM_Generate_Eta_c, asDouble, boxResult, gE]
  · simp [RGM_Generate_Tau_c, asDouble, boxResult, gT]

/-- Witness for C7: one concrete instance of each error kind propagates
through sampler and wrapper. -/
theorem C7_witness :
    (Generate_Rho_c [[0, 0], [0, 0]] 2 0 1 (constSrc 0) =
        Except.error Err.invalidHyperparameter ∧
      RGM_Generate_Rho_c Generate_Rho_c (SEXP.realMatrix [[0, 0], [0, 0]])
        (SEXP.realScalar 2) (SEXP.realScalar 0) (SEXP.realScalar 1)
        (constSrc 0) = some (Except.error Err.invalidHyperparameter)) ∧
    (Generate_Psi_c [[0]] 2 1 1 (constSrc 0) =
        Except.error Err.dimensionMismatch ∧
      RGM_Generate_Psi_c Generate_Psi_c (SEXP.realMatrix [[0]])
        (SEXP.realScalar 2) (SEXP.realScalar 1) (SEXP.realScalar 1)
        (constSrc 0) = some (Except.error Err.dimensionMismatch)) ∧
    (Generate_Eta_c 2 (-1) 1 1 1 (constSrc 0) =
        Except.error Err.numericalDegeneracy ∧
      RGM_Generate_Eta_c Generate_Eta_c (SEXP.realScalar 2)
        (SEXP.realScalar (-1)) (SEXP.realScalar 1) (SEXP.realScalar 1)
        (SEXP.realScalar 1) (constSrc 0) =
        some (Except.error Err.numericalDegeneracy)) ∧
    (Generate_Tau_c 0 1 0 1 1 (constSrc 0) =
        Except.error Err.invalidHyperparameter ∧
      RGM_Generate_Tau_c Generate_Tau_c (SEXP.realScalar 0)
        (SEXP.realScalar 1) (SEXP.realScalar 0) (SEXP.realScalar 1)
        (SEXP.realScalar 1) (constSrc 0) =
        some (Except.error Err.invalidHyperparameter)) :=
  C7_errors_propagate (constSrc 0) [[0, 0], [0, 0]] [[0]]
    2 2 0 1 1 1 2 (-1) 1 1 1 0 1 0 1 1
    Err.invalidHyperparameter Err.dimensionMismatch
    Err.numericalDegeneracy Err.invalidHyperparameter
    rho_dist_invalid psi_dist_mismatch eta_dist_degenerate tau_dist_invalid

/-- A successful `callRho` leaves the whole state unchanged except for one
generator advance. -/
theorem callRho_ok {s : GibbsState} {x : ℚ} {s' : GibbsState}
    (h : callRho s = Except.ok (x, s')) :
    s' = { s with src := s.src.advance } := by
  unfold callRho at h
  cases hg : Generate_Rho_c s.Gamma s.p s.a_rho s.b_rho s.src with
  | error e => rw [hg] at h; cases h
  | ok v =>
      obtain ⟨y, src'⟩ := v
      obtain ⟨dist, -, -, hadv⟩ := Generate_Rho_c_ok hg
      rw [hg] at h
      simp only [Except.ok.injEq, Prod.mk.injEq] at h
      rw [← h.2, hadv]

/-- A successful `callPsi` leaves the whole state unchanged except for one
generator advance. -/
theorem callPsi_ok {s : GibbsState} {x : ℚ} {s' : GibbsState}
    (h : callPsi s = Except.ok (x, s')) :
    s' = { s with src := s.src.advance } := by
  unfold callPsi at h
  cases hg : Generate_Psi_c s.Phi s.d s.a_psi s.b_psi s.src with
  | error e => rw [hg] at h; cases h
  | ok v =>
      obtain ⟨y, src'⟩ := v
      obtain ⟨dist, -, -, hadv⟩ := Generate_Psi_c_ok hg
      rw [hg] at h
      simp only [Except.ok.injEq, Prod.mk.injEq] at h
      rw [← h.2, hadv]

/-- A successful `callEta` leaves the whole state unchanged except for one
generator advance. -/
theorem callEta_ok {s : GibbsState} {x : ℚ} {s' : GibbsState}
    (h : callEta s = Except.ok (x, s')) :
    s' = { s with src := s.src.advance } := by
  unfold callEta at h
  cases hg : Generate_Eta_c s.bCoef s.phiScale s.a_eta s.b_eta s.nu_2 s.src with
  | error e => rw [hg] at h; cases h
  | ok v =>
      obtain ⟨y, src'⟩ := v
      obtain ⟨dist, -, -, hadv⟩ := Generate_Eta_c_ok hg
      rw [hg] at h
      simp only [Except.ok.injEq, Prod.mk.injEq] at h
      rw [← h.2, hadv]

/-- A successful `callTau` leaves the whole state unchanged except for one
generator advance. -/
theorem callTau_ok {s : GibbsState} {x : ℚ} {s' : GibbsState}
    (h : callTau s = Except.ok (x, s')) :
    s' = { s with src := s.src.advance } := by
  unfold callTau at h
  cases hg : Generate_Tau_c s.aCoef s.gammaScale s.a_tau s.b_tau s.nu_1 s.src with
  | error e => rw [hg] at h; cases h
  | ok v =>
      obtain ⟨y, src'⟩ := v
      obtain ⟨dist, -, -, hadv⟩ := Generate_Tau_c_ok hg
      rw [hg] at h
      simp only [Except.ok.injEq, Prod.mk.injEq] at h
      rw [← h.2, hadv]

/-- Evaluating `callRho` on the concrete state `s0`. -/
theorem callRho_eval : callRho s0 = Except.ok (1, s1) := by
  unfold callRho
  rw [show Generate_Rho_c s0.Gamma s0.p s0.a_rho s0.b_rho s0.src =
      Except.ok (1, RandomSource.advance s0.src) from rho_eval00]
  rfl

/-- Evaluating `callPsi` on the concrete state `s0`. -/
theorem callPsi_eval : callPsi s0 = Except.ok (1, s1) := by
  unfold callPsi
  rw [show Generate_Psi_c s0.Phi s0.d s0.a_psi s0.b_psi s0.src =
      Except.ok (1, RandomSource.advance s0.src) from psi_eval00]
  rfl

/-- Evaluating `callEta` on the concrete state `s0`. -/
theorem callEta_eval : callEta s0 = Except.ok (1, s1) := by
  unfold callEta
  rw [show Generate_Eta_c s0.bCoef s0.phiScale s0.a_eta s0.b_eta s0.nu_2
      s0.src = Except.ok (1, RandomSource.advance s0.src) from eta_eval0]
  rfl

/-- Evaluating `callTau` on the concrete state `s0`. -/
theorem callTau_eval : callTau s0 = Except.ok (1, s1) := by
  unfold callTau
  rw [show Generate_Tau_c s0.aCoef s0.gammaScale s0.a_tau s0.b_tau s0.nu_1
      s0.src = Except.ok (1, RandomSource.advance s0.src) from tau_eval0]
  rfl

/-- C8: no sampler call mutates its inputs: after a successful call, the
matrix argument and every scalar hyperparameter argument have the same
value in the resulting state as before the call. -/
theorem C8_inputs_not_mutated
    (s₁ s₂ s₃ s₄ : GibbsState) (x₁ x₂ x₃ x₄ : ℚ) (t₁ t₂ t₃ t₄ : GibbsState)
    (h₁ : callRho s₁ = Except.ok (x₁, t₁))
    (h₂ : callPsi s₂ = Except.ok (x₂, t₂))
    (h₃ : callEta s₃ = Except.ok (x₃, t₃))
    (h₄ : callTau s₄ = Except.ok (x₄, t₄)) :
    (t₁.Gamma = s₁.Gamma ∧ t₁.p = s₁.p ∧ t₁.a_rho = s₁.a_rho ∧
      t₁.b_rho = s₁.b_rho) ∧
    (t₂.Phi = s₂.Phi ∧ t₂.d = s₂.d ∧ t₂.a_psi = s₂.a_psi ∧
      t₂.b_psi = s₂.b_psi) ∧
    (t₃.bCoef = s₃.bCoef ∧ t₃.phiScale = s₃.phiScale ∧ t₃.a_eta = s₃.a_eta ∧
      t₃.b_eta = s₃.b_eta ∧ t₃.nu_2 = s₃.nu_2) ∧
    (t₄.aCoef = s₄.aCoef ∧ t₄.gammaScale = s₄.gammaScale ∧
      t₄.a_tau = s₄.a_tau ∧ t₄.b_tau = s₄.b_tau ∧ t₄.nu_1 = s₄.nu_1) := by
  obtain rfl := callRho_ok h₁
  obtain rfl := callPsi_ok h₂
  obtain rfl := callEta_ok h₃
  obtain rfl := callTau_ok h₄
  exact ⟨⟨rfl, rfl, rfl, rfl⟩, ⟨rfl, rfl, rfl, rfl⟩,
    ⟨rfl, rfl, rfl, rfl, rfl⟩, ⟨rfl, rfl, rfl, rfl, rfl⟩⟩

/-- Witness for C8 on the concrete state `s0`. -/
theorem C8_witness :
    (s1.Gamma = s0.Gamma ∧ s1.p = s0.p ∧ s1.a_rho = s0.a_rho ∧
      s1.b_rho = s0.b_rho) ∧
    (s1.Phi = s0.Phi ∧ s1.d = s0.d ∧ s1.a_psi = s0.a_psi ∧
      s1.b_psi = s0.b_psi) ∧
    (s1.bCoef = s0.bCoef ∧ s1.phiScale = s0.phiScale ∧ s1.a_eta = s0.a_eta ∧
      s1.b_eta = s0.b_eta ∧ s1.nu_2 = s0.nu_2) ∧
    (s1.aCoef = s0.aCoef ∧ s1.gammaScale = s0.gammaScale ∧
      s1.a_tau = s0.a_tau ∧ s1.b_tau = s0.b_tau ∧ s1.nu_1 = s0.nu_1) :=
  C8_inputs_not_mutated s0 s0 s0 s0 1 1 1 1 s1 s1 s1 s1
    callRho_eval callPsi_eval callEta_eval callTau_eval

/-- C9: a successful sampler call's only side effect is on the shared
generator, which it advances by exactly one draw: the stream and quantile
transform are untouched, the position increments by one, and every other
component of the program state is unchanged. -/
theorem C9_advances_generator_one_draw
    (s₁ s₂ s₃ s₄ : GibbsState) (x₁ x₂ x₃ x₄ : ℚ) (t₁ t₂ t₃ t₄ : GibbsState)
    (h₁ : callRho s₁ = Except.ok (x₁, t₁))
    (h₂ : callPsi s₂ = Except.ok (x₂, t₂))
    (h₃ : callEta s₃ = Except.ok (x₃, t₃))
    (h₄ : callTau s₄ = Except.ok (x₄, t₄)) :
    (t₁ = { s₁ with src := t₁.src } ∧ t₁.src.stream = s₁.src.stream ∧
      t₁.src.quantile = s₁.src.quantile ∧ t₁.src.pos = s₁.src.pos + 1) ∧
    (t₂ = { s₂ with src := t₂.src } ∧ t₂.src.stream = s₂.src.stream ∧
      t₂.src.quantile = s₂.src.quantile ∧ t₂.src.pos = s₂.src.pos + 1) ∧
    (t₃ = { s₃ with src := t₃.src } ∧ t₃.src.stream = s₃.src.stream ∧
      t₃.src.quantile = s₃.src.quantile ∧ t₃.src.pos = s₃.src.pos + 1) ∧
    (t₄ = { s₄ with src := t₄.src } ∧ t₄.src.stream = s₄.src.stream ∧
      t₄.src.quantile = s₄.src.quantile ∧ t₄.src.pos = s₄.src.pos + 1) := by
  obtain rfl := callRho_ok h₁
  obtain rfl := callPsi_ok h₂
  obtain rfl := callEta_ok h₃
  obtain rfl := callTau_ok h₄
  exact ⟨⟨rfl, rfl, rfl, rfl⟩, ⟨rfl, rfl, rfl, rfl⟩,
    ⟨rfl, rfl, rfl, rfl⟩, ⟨rfl, rfl, rfl, rfl⟩⟩

/-- Witness for C9 on the concrete state `s0`. -/
theorem C9_witness :
    (s1 = { s0 with src := s1.src } ∧ s1.src.stream = s0.src.stream ∧
      s1.src.quantile = s0.src.quantile ∧ s1.src.pos = s0.src.pos + 1) ∧
    (s1 = { s0 with src := s1.src } ∧ s1.src.stream = s0.src.stream ∧
      s1.src.quantile = s0.src.quantile ∧ s1.src.pos = s0.src.pos + 1) ∧
    (s1 = { s0 with src := s1.src } ∧ s1.src.stream = s0.src.stream ∧
      s1.src.quantile = s0.src.quantile ∧ s1.src.pos = s0.src.pos + 1) ∧
    (s1 = { s0 with src := s1.src } ∧ s1.src.stream = s0.src.stream ∧
      s1.src.quantile = s0.src.quantile ∧ s1.src.pos = s0.src.pos + 1) :=
  C9_advances_generator_one_draw s0 s0 s0 s0 1 1 1 1 s1 s1 s1 s1
    callRho_eval callPsi_eval callEta_eval callTau_eval

/-- C10: each exported wrapper is exactly the composition of argument
unboxing, the native routine applied to the arguments in their declared
order, and result boxing — nothing else — and the dispatch table registers
exactly the four routines with argument counts 4, 4, 5, 5. -/
theorem C10_wrappers_unbox_call_box :
    (∀ (f : NativeMat3) (g q a b : SEXP) (src : RandomSource),
        RGM_Generate_Rho_c f g q a b src = unboxCallBoxMat3 f g q a b src) ∧
    (∀ (f : NativeMat3) (g q a b : SEXP) (src : RandomSource),
        RGM_Generate_Psi_c f g q a b src = unboxCallBoxMat3 f g q a b src) ∧
    (∀ (f : Native5) (x1 x2 x3 x4 x5 : SEXP) (src : RandomSource),
        RGM_Generate_Eta_c f x1 x2 x3 x4 x5 src =
          unboxCallBox5 f x1 x2 x3 x4 x5 src) ∧
    (∀ (f : Native5) (x1 x2 x3 x4 x5 : SEXP) (src : RandomSource),
        RGM_Generate_Tau_c f x1 x2 x3 x4 x5 src =
          unboxCallBox5 f x1 x2 x3 x4 x5 src) ∧
    CallEntries.map Prod.fst =
      ["_ReciprocalGraphicalModels_Generate_Rho_c",
       "_ReciprocalGraphicalModels_Generate_Psi_c",
       "_ReciprocalGraphicalModels_Generate_Eta_c",
       "_ReciprocalGraphicalModels_Generate_Tau_c"] ∧
    CallEntries.map Prod.snd = [4, 4, 5, 5] := by
  refine ⟨?_, ?_, ?_, ?_, rfl, rfl⟩
  · intro f g q a b src
    cases g <;> cases q <;> cases a <;> cases b <;> rfl
  · intro f g q a b src
    cases g <;> cases q <;> cases a <;> cases b <;> rfl
  · intro f x1 x2 x3 x4 x5 src
    cases x1 <;> cases x2 <;> cases x3 <;> cases x4 <;> cases x5 <;> rfl
  · intro f x1 x2 x3 x4 x5 src
    cases x1 <;> cases x2 <;> cases x3 <;> cases x4 <;> cases x5 <;> rfl

end RGM
